import Mathlib

/-!
Shallow embedding of the two model orchestrators of this repository:
the Perceptual-CycleGAN model (`models/perceptual_cycle_gan_model.py`)
and the U-Net segmentation model (`models/unet_model.py`).

Tensors are abstracted by a type parameter `T`; the external networks
(generators, discriminators, the frozen auxiliary and evaluation
classifiers) and the loss criteria are abstract functions collected in
an environment record, since the repository treats them as opaque
framework collaborators.  Scalar loss values are rationals (`ℚ`), so
that the arithmetic the orchestrator performs on them is exact.
-/

namespace PCG

/-- The external collaborators of `PerceptualCycleGANModel`: the two
generators, the two discriminators, channel concatenation
(`torch.cat` with `dim=1`), the three loss criteria, and the three
loss-weight options (`lambda_identity`, `lambda_A`, `lambda_B`). -/
structure CGEnv (T : Type) where
  netG_A : T → T
  netG_B : T → T
  netD_A : T → T
  netD_B : T → T
  cat1 : T → T → T
  criterionGAN : T → Bool → ℚ
  criterionCycle : T → T → ℚ
  criterionIdt : T → T → ℚ
  lambda_identity : ℚ
  lambda_A : ℚ
  lambda_B : ℚ

/-- The mutable attributes of `PerceptualCycleGANModel` that the
embedded methods read and write: the input images, the auxiliary
feature maps computed by `set_input`, the derived images of
`forward`, the identity-mapped images of `backward_G`, and the named
scalar loss accumulators. -/
structure CGState (T : Type) where
  real_A : T
  real_B : T
  aux_A : T
  aux_B : T
  fake_B : T
  rec_A : T
  fake_A : T
  rec_B : T
  idt_A : Option T
  idt_B : Option T
  loss_idt_A : ℚ
  loss_idt_B : ℚ
  loss_G_A : ℚ
  loss_G_B : ℚ
  loss_cycle_A : ℚ
  loss_cycle_B : ℚ
  loss_G : ℚ
  loss_D_A : ℚ
  loss_D_B : ℚ

/-- `PerceptualCycleGANModel.forward`:
`fake_B = netG_A(cat(real_A, aux_A))`,
`rec_A = netG_B(cat(fake_B, aux_A))`,
`fake_A = netG_B(cat(real_B, aux_B))`,
`rec_B = netG_A(cat(fake_A, aux_B))`. -/
def forward {T : Type} (env : CGEnv T) (s : CGState T) : CGState T :=
  let fake_B := env.netG_A (env.cat1 s.real_A s.aux_A)
  let rec_A := env.netG_B (env.cat1 fake_B s.aux_A)
  let fake_A := env.netG_B (env.cat1 s.real_B s.aux_B)
  let rec_B := env.netG_A (env.cat1 fake_A s.aux_B)
  { s with fake_B := fake_B, rec_A := rec_A, fake_A := fake_A, rec_B := rec_B }

/-- `PerceptualCycleGANModel.backward_G` (loss computation only; the
autograd call `loss_G.backward()` is the external framework's):
if `lambda_identity > 0` it computes the identity images and sets
`loss_idt_A = criterionIdt(idt_A, real_B) * lambda_B * lambda_identity`,
`loss_idt_B = criterionIdt(idt_B, real_A) * lambda_A * lambda_identity`,
otherwise sets both identity losses to `0`; then computes the two
adversarial losses, the two weighted cycle losses, and their sum
`loss_G`. -/
def backward_G {T : Type} (env : CGEnv T) (s : CGState T) : CGState T :=
  let lambda_idt := env.lambda_identity
  let lambda_A := env.lambda_A
  let lambda_B := env.lambda_B
  let s1 :=
    if lambda_idt > 0 then
      let idtA := env.netG_A (env.cat1 s.real_B s.aux_B)
      let idtB := env.netG_B (env.cat1 s.real_A s.aux_A)
      { s with
        idt_A := some idtA
        loss_idt_A := env.criterionIdt idtA s.real_B * lambda_B * lambda_idt
        idt_B := some idtB
        loss_idt_B := env.criterionIdt idtB s.real_A * lambda_A * lambda_idt }
    else
      { s with loss_idt_A := 0, loss_idt_B := 0 }
  let loss_G_A := env.criterionGAN (env.netD_A s.fake_B) true
  let loss_G_B := env.criterionGAN (env.netD_B s.fake_A) true
  let loss_cycle_A := env.criterionCycle s.rec_A s.real_A * lambda_A
  let loss_cycle_B := env.criterionCycle s.rec_B s.real_B * lambda_B
  { s1 with
    loss_G_A := loss_G_A
    loss_G_B := loss_G_B
    loss_cycle_A := loss_cycle_A
    loss_cycle_B := loss_cycle_B
    loss_G := loss_G_A + loss_G_B + loss_cycle_A + loss_cycle_B +
      s1.loss_idt_A + s1.loss_idt_B }

/-- The total generator loss as the spec claim words it: the six-term
sum in which each identity L1 loss is scaled by exactly
`lambda_identity` (and by nothing else).  Written from the claim, to
be compared against `backward_G`. -/
def claimedLossG {T : Type} (env : CGEnv T) (s : CGState T) : ℚ :=
  env.criterionGAN (env.netD_A s.fake_B) true +
  env.criterionGAN (env.netD_B s.fake_A) true +
  env.criterionCycle s.rec_A s.real_A * env.lambda_A +
  env.criterionCycle s.rec_B s.real_B * env.lambda_B +
  env.criterionIdt (env.netG_A (env.cat1 s.real_B s.aux_B)) s.real_B * env.lambda_identity +
  env.criterionIdt (env.netG_B (env.cat1 s.real_A s.aux_A)) s.real_A * env.lambda_identity

/-- A concrete environment over `T = ℚ` used to evaluate the
orchestrator on explicit inputs: both generators add `1`, the
discriminators are the identity, concatenation is addition, the GAN
and cycle criteria return `0`, and the identity criterion is the
difference, with `lambda_identity = 1`, `lambda_A = 1`,
`lambda_B = 2`. -/
def envQ : CGEnv ℚ where
  netG_A := fun x => x + 1
  netG_B := fun x => x + 1
  netD_A := fun x => x
  netD_B := fun x => x
  cat1 := fun a b => a + b
  criterionGAN := fun _ _ => 0
  criterionCycle := fun _ _ => 0
  criterionIdt := fun a b => a - b
  lambda_identity := 1
  lambda_A := 1
  lambda_B := 2

/-- A concrete all-zero state over `T = ℚ`. -/
def sQ : CGState ℚ where
  real_A := 0
  real_B := 0
  aux_A := 0
  aux_B := 0
  fake_B := 0
  rec_A := 0
  fake_A := 0
  rec_B := 0
  idt_A := none
  idt_B := none
  loss_idt_A := 0
  loss_idt_B := 0
  loss_G_A := 0
  loss_G_B := 0
  loss_cycle_A := 0
  loss_cycle_B := 0
  loss_G := 0
  loss_D_A := 0
  loss_D_B := 0

/-- A tensor together with its autograd-graph connectivity: `conn` is
true when backward through this tensor reaches the generator
parameters that produced it.  `tensor.detach()` severs this
connection. -/
structure GTensor (T : Type) where
  val : T
  conn : Bool

/-- `torch.Tensor.detach`: same value, gradient graph severed. -/
def detach {T : Type} (x : GTensor T) : GTensor T :=
  { val := x.val, conn := false }

/-- Applying a network to a tensor: the output value is the function
of the input value, and the output stays connected to whatever the
input was connected to. -/
def applyNet {T : Type} (f : T → T) (x : GTensor T) : GTensor T :=
  { val := f x.val, conn := x.conn }

/-- The observable outcome of `backward_D_basic`: the two
discriminator predictions and the returned loss value. -/
structure DBasicOut (T : Type) where
  pred_real : GTensor T
  pred_fake : GTensor T
  loss_D : ℚ

/-- `PerceptualCycleGANModel.backward_D_basic` (loss computation; the
autograd call `loss_D.backward()` is the external framework's):
`pred_real = netD(real)`, `loss_D_real = criterionGAN(pred_real, True)`,
`pred_fake = netD(fake.detach())`,
`loss_D_fake = criterionGAN(pred_fake, False)`,
`loss_D = (loss_D_real + loss_D_fake) * 0.5`. -/
def backward_D_basic {T : Type} (netD : T → T) (criterionGAN : T → Bool → ℚ)
    (real fake : GTensor T) : DBasicOut T :=
  let pred_real := applyNet netD real
  let loss_D_real := criterionGAN pred_real.val true
  let pred_fake := applyNet netD (detach fake)
  let loss_D_fake := criterionGAN pred_fake.val false
  { pred_real := pred_real
    pred_fake := pred_fake
    loss_D := (loss_D_real + loss_D_fake) * (1 / 2) }

end PCG

/-- C3: the discriminator loss of `backward_D_basic` is exactly the
arithmetic mean of the adversarial loss of the prediction on the real
image against the true label and of the prediction on the fake image
against the false label, and the fake prediction is computed from a
detached copy: its value is that of the fake, while its gradient
graph is severed, so no discriminator gradient flows back into the
generator that produced the fake. -/
theorem PCG.backward_D_basic_mean_and_detached {T : Type} (netD : T → T)
    (criterionGAN : T → Bool → ℚ) (real fake : PCG.GTensor T) :
    (PCG.backward_D_basic netD criterionGAN real fake).loss_D =
      (criterionGAN (netD real.val) true + criterionGAN (netD fake.val) false) / 2 ∧
    (PCG.backward_D_basic netD criterionGAN real fake).pred_fake.val = netD fake.val ∧
    (PCG.backward_D_basic netD criterionGAN real fake).pred_fake.conn = false := by
  refine ⟨?_, rfl, rfl⟩
  show (criterionGAN (netD real.val) true + criterionGAN (netD fake.val) false) * (1 / 2) =
    (criterionGAN (netD real.val) true + criterionGAN (netD fake.val) false) / 2
  ring

namespace PCG

/-- One network's parameter vector, its accumulated gradient, and its
`requires_grad` flag, abstracted to a single rational per network. -/
structure NetSlot where
  param : ℚ
  grad : ℚ
  rg : Bool

/-- The parameter-level state of the orchestrator: the two generators
and the two discriminators. -/
structure OptimState where
  gA : NetSlot
  gB : NetSlot
  dA : NetSlot
  dB : NetSlot

/-- The parameter-level external collaborators: the gradient
contribution each loss backward writes into each network (abstract),
and the optimizer update rule `param ↦ upd param grad` (Adam,
abstract). -/
structure OptimEnv where
  gradGA : ℚ
  gradGB : ℚ
  leakDA : ℚ
  leakDB : ℚ
  gradDA : ℚ
  gradDB : ℚ
  upd : ℚ → ℚ → ℚ

/-- `set_requires_grad([netD_A, netD_B], b)`: toggles the
`requires_grad` flag of both discriminators, nothing else. -/
def set_requires_grad_D (b : Bool) (s : OptimState) : OptimState :=
  { s with dA := { s.dA with rg := b }, dB := { s.dB with rg := b } }

/-- `optimizer_G.zero_grad()`: clears the gradients of the parameters
the generator optimizer owns (`netG_A`, `netG_B`, per its
construction). -/
def zero_grad_G (s : OptimState) : OptimState :=
  { s with gA := { s.gA with grad := 0 }, gB := { s.gB with grad := 0 } }

/-- `optimizer_D.zero_grad()`: clears the gradients of `netD_A` and
`netD_B`. -/
def zero_grad_D (s : OptimState) : OptimState :=
  { s with dA := { s.dA with grad := 0 }, dB := { s.dB with grad := 0 } }

/-- Gradient accumulation into one network by a `backward()` call:
autograd adds the contribution only when the network's
`requires_grad` flag is set. -/
def accum (n : NetSlot) (c : ℚ) : NetSlot :=
  if n.rg then { n with grad := n.grad + c } else n

/-- `self.backward_G()` at the parameter level: `loss_G.backward()`
accumulates gradients into every network participating in the
generator loss graph (both generators, and both discriminators
through the adversarial terms), each gated by its `requires_grad`
flag.  Parameters are not touched. -/
def backward_G_params (env : OptimEnv) (s : OptimState) : OptimState :=
  { s with
    gA := accum s.gA env.gradGA
    gB := accum s.gB env.gradGB
    dA := accum s.dA env.leakDA
    dB := accum s.dB env.leakDB }

/-- `optimizer_G.step()`: updates only the parameters the generator
optimizer owns (`netG_A`, `netG_B`). -/
def step_G (env : OptimEnv) (s : OptimState) : OptimState :=
  { s with
    gA := { s.gA with param := env.upd s.gA.param s.gA.grad }
    gB := { s.gB with param := env.upd s.gB.param s.gB.grad } }

/-- `self.backward_D_A()` then `self.backward_D_B()` at the parameter
level: each discriminator loss backward accumulates into that
discriminator (the generator side of each graph is severed by
`detach`), gated by its `requires_grad` flag. -/
def backward_D_params (env : OptimEnv) (s : OptimState) : OptimState :=
  { s with
    dA := accum s.dA env.gradDA
    dB := accum s.dB env.gradDB }

/-- `optimizer_D.step()`: updates only the parameters the
discriminator optimizer owns (`netD_A`, `netD_B`). -/
def step_D (env : OptimEnv) (s : OptimState) : OptimState :=
  { s with
    dA := { s.dA with param := env.upd s.dA.param s.dA.grad }
    dB := { s.dB with param := env.upd s.dB.param s.dB.grad } }

/-- `PerceptualCycleGANModel.optimize_parameters` at the parameter
level, in the source's order: disable `requires_grad` on both
discriminators, zero and compute generator gradients and step the
generator optimizer, re-enable `requires_grad`, zero and compute
discriminator gradients and step the discriminator optimizer.
(`self.forward()` runs first and touches no parameter or flag.) -/
def optimize_parameters (env : OptimEnv) (s : OptimState) : OptimState :=
  step_D env (backward_D_params env (zero_grad_D (set_requires_grad_D true
    (step_G env (backward_G_params env (zero_grad_G (set_requires_grad_D false s)))))))

end PCG

namespace PCG

/-- `torch.max(preds, 1)` on one sample's class-score vector: the
index of a maximal entry (the first one). -/
def argmax_idx (l : List ℚ) : Nat :=
  (List.range l.length).foldl (fun best i => if l.getD best 0 < l.getD i 0 then i else best) 0

/-- The observable outcome of `model_evaluation`: the state after the
generator forward pass, the gradient-tracking mode in effect while
that forward pass ran and while the evaluation network ran (the
source wraps only the evaluation-network call in `torch.no_grad()`),
the concatenated image batch, the labels, and the predicted
classes. -/
structure EvalOut (S : Type) where
  after_forward : CGState (List S)
  forward_grad : Bool
  eval_grad : Bool
  images : List S
  labels : List ℚ
  preds : List Nat

/-- `PerceptualCycleGANModel.model_evaluation`, with a batch embedded
as a list of samples (`torch.cat` with `dim=0` is list append):
`self.forward()` runs under the ambient gradient mode; then
`images = cat(fake_A, fake_B)`,
`labels = cat(zeros(batch_size), ones(batch_size))`; the evaluation
network runs inside `torch.no_grad()`; the returned predictions are
the per-sample argmax over class scores. -/
def model_evaluation {S : Type} (ambient : Bool) (env : CGEnv (List S))
    (eval_net : List S → List (List ℚ)) (batch_size : Nat)
    (s : CGState (List S)) : EvalOut S :=
  let s1 := forward env s
  let images := s1.fake_A ++ s1.fake_B
  let labels := List.replicate batch_size (0 : ℚ) ++ List.replicate batch_size (1 : ℚ)
  let preds := (eval_net images).map argmax_idx
  { after_forward := s1
    forward_grad := ambient
    eval_grad := false
    images := images
    labels := labels
    preds := preds }

/-- A concrete environment over batches of rational samples, with
identity networks and append as channel concatenation. -/
def envL : CGEnv (List ℚ) where
  netG_A := fun x => x
  netG_B := fun x => x
  netD_A := fun x => x
  netD_B := fun x => x
  cat1 := fun a b => a ++ b
  criterionGAN := fun _ _ => 0
  criterionCycle := fun _ _ => 0
  criterionIdt := fun _ _ => 0
  lambda_identity := 0
  lambda_A := 1
  lambda_B := 1

/-- A concrete batch-level state with empty batches. -/
def sL : CGState (List ℚ) where
  real_A := []
  real_B := []
  aux_A := []
  aux_B := []
  fake_B := []
  rec_A := []
  fake_A := []
  rec_B := []
  idt_A := none
  idt_B := none
  loss_idt_A := 0
  loss_idt_B := 0
  loss_G_A := 0
  loss_G_B := 0
  loss_cycle_A := 0
  loss_cycle_B := 0
  loss_G := 0
  loss_D_A := 0
  loss_D_B := 0

end PCG

/-- C6 counterexample: `model_evaluation` does not run the generator
forward pass without gradient tracking.  Only the
evaluation-network call sits inside `torch.no_grad()`: with gradient
tracking ambiently enabled (the training default), the generator
forward pass of `model_evaluation` runs with gradient tracking on,
refuting the claim at this concrete input. -/
theorem PCG.model_evaluation_forward_grad_not_disabled :
    ¬ (PCG.model_evaluation true PCG.envL (fun _ => []) 1 PCG.sL).forward_grad = false := by
  decide

/-- C6 (amended): `model_evaluation` runs the generator forward pass
under the ambient gradient mode (only the evaluation-network forward
is wrapped in `torch.no_grad()`), concatenates the A-domain fakes
before the B-domain fakes, labels the first `batch_size` entries `0`
(A-domain fakes) and the next `batch_size` entries `1` (B-domain
fakes), runs the evaluation network on the concatenation without
gradient tracking, and returns the argmax-predicted classes together
with those labels. -/
theorem PCG.model_evaluation_spec {S : Type} (ambient : Bool) (env : PCG.CGEnv (List S))
    (eval_net : List S → List (List ℚ)) (batch_size : Nat) (s : PCG.CGState (List S)) :
    (PCG.model_evaluation ambient env eval_net batch_size s).forward_grad = ambient ∧
    (PCG.model_evaluation ambient env eval_net batch_size s).eval_grad = false ∧
    (PCG.model_evaluation ambient env eval_net batch_size s).after_forward =
      PCG.forward env s ∧
    (PCG.model_evaluation ambient env eval_net batch_size s).images =
      (PCG.forward env s).fake_A ++ (PCG.forward env s).fake_B ∧
    (PCG.model_evaluation ambient env eval_net batch_size s).labels.take batch_size =
      List.replicate batch_size 0 ∧
    (PCG.model_evaluation ambient env eval_net batch_size s).labels.drop batch_size =
      List.replicate batch_size 1 ∧
    (PCG.model_evaluation ambient env eval_net batch_size s).preds =
      (eval_net ((PCG.forward env s).fake_A ++ (PCG.forward env s).fake_B)).map
        PCG.argmax_idx := by
  refine ⟨rfl, rfl, rfl, rfl, ?_, ?_, rfl⟩ <;>
    simp [PCG.model_evaluation]

/-- C4: during `optimize_parameters`, both discriminators have
`requires_grad = false` from before the generator backward to the end
of the generator sub-step, their parameters (and, flags being down,
even their gradients) are unchanged by the whole generator sub-step,
the flags are re-enabled before the discriminator sub-step, and the
discriminator sub-step leaves both generator parameters exactly as
the generator sub-step left them. -/
theorem PCG.optimize_parameters_substep_frames (env : PCG.OptimEnv) (s : PCG.OptimState) :
    (PCG.set_requires_grad_D false s).dA.rg = false ∧
    (PCG.set_requires_grad_D false s).dB.rg = false ∧
    (PCG.step_G env (PCG.backward_G_params env (PCG.zero_grad_G
      (PCG.set_requires_grad_D false s)))).dA.param = s.dA.param ∧
    (PCG.step_G env (PCG.backward_G_params env (PCG.zero_grad_G
      (PCG.set_requires_grad_D false s)))).dB.param = s.dB.param ∧
    (PCG.step_G env (PCG.backward_G_params env (PCG.zero_grad_G
      (PCG.set_requires_grad_D false s)))).dA.grad = s.dA.grad ∧
    (PCG.step_G env (PCG.backward_G_params env (PCG.zero_grad_G
      (PCG.set_requires_grad_D false s)))).dB.grad = s.dB.grad ∧
    (PCG.set_requires_grad_D true (PCG.step_G env (PCG.backward_G_params env (PCG.zero_grad_G
      (PCG.set_requires_grad_D false s))))).dA.rg = true ∧
    (PCG.set_requires_grad_D true (PCG.step_G env (PCG.backward_G_params env (PCG.zero_grad_G
      (PCG.set_requires_grad_D false s))))).dB.rg = true ∧
    (PCG.optimize_parameters env s).gA.param =
      (PCG.step_G env (PCG.backward_G_params env (PCG.zero_grad_G
        (PCG.set_requires_grad_D false s)))).gA.param ∧
    (PCG.optimize_parameters env s).gB.param =
      (PCG.step_G env (PCG.backward_G_params env (PCG.zero_grad_G
        (PCG.set_requires_grad_D false s)))).gB.param ∧
    PCG.optimize_parameters env s =
      PCG.step_D env (PCG.backward_D_params env (PCG.zero_grad_D (PCG.set_requires_grad_D true
        (PCG.step_G env (PCG.backward_G_params env (PCG.zero_grad_G
          (PCG.set_requires_grad_D false s))))))) := by
  refine ⟨rfl, rfl, ?_, ?_, ?_, ?_, rfl, rfl, rfl, rfl, rfl⟩ <;>
    simp [PCG.step_G, PCG.backward_G_params, PCG.zero_grad_G, PCG.set_requires_grad_D,
      PCG.accum]

namespace UNet

/-- The five recognized segmentation-network architecture variants of
`UnetModel.get_network_by_name`. -/
inductive UnetVariant where
  | unet
  | unet_2plus
  | unet_3plus
  | unet_3plus_deepsup
  | unet_3plus_deepsup_cgm
deriving DecidableEq

/-- The `unet_type` string dispatch of `get_network_by_name`: the
if/elif chain mapping each recognized name to its architecture
variant, `none` otherwise. -/
def unetDispatch (t : String) : Option UnetVariant :=
  if t = "unet" then some UnetVariant.unet
  else if t = "unet_2plus" then some UnetVariant.unet_2plus
  else if t = "unet_3plus" then some UnetVariant.unet_3plus
  else if t = "unet_3plus_deepsup" then some UnetVariant.unet_3plus_deepsup
  else if t = "unet_3plus_deepsup_cgm" then some UnetVariant.unet_3plus_deepsup_cgm
  else none

/-- The ways `get_network_by_name` can fail: the
`NotImplementedError` of the else branch, the
`assert(torch.cuda.is_available())`, and Python's
`UnboundLocalError` when `return net` is reached with the local
`net` never assigned. -/
inductive NetError where
  | notImplemented (msg : String)
  | assertionFailed
  | unboundLocal (localName : String)
deriving DecidableEq

/-- The outcome of `UnetModel.get_network_by_name`: which model
object was constructed (if the dispatch succeeded), the
`opt.load_size` / `opt.crop_size` side effects, and the returned
value or raised error. -/
structure GetNetOutcome where
  constructed : Option UnetVariant
  load_size : Option Nat
  crop_size : Option Nat
  result : Except NetError UnetVariant

/-- `UnetModel.get_network_by_name`: dispatch on `opt.unet_type`
(raising `NotImplementedError` naming the value before constructing
anything), then set `opt.load_size = 512` and `opt.crop_size = 320`,
then, only inside the non-empty `gpu_ids` branch, assert CUDA and
bind the local `net` to the `DataParallel` wrapping of the model; an
empty `gpu_ids` reaches `return net` with `net` unbound. -/
def get_network_by_name (unet_type : String) (gpu_ids : List Nat)
    (cuda_available : Bool) : GetNetOutcome :=
  match unetDispatch unet_type with
  | none =>
    { constructed := none
      load_size := none
      crop_size := none
      result := Except.error (NetError.notImplemented
        ("Unet model name [" ++ unet_type ++ "] is not recognized")) }
  | some v =>
    if 0 < gpu_ids.length then
      if cuda_available then
        { constructed := some v
          load_size := some 512
          crop_size := some 320
          result := Except.ok v }
      else
        { constructed := some v
          load_size := some 512
          crop_size := some 320
          result := Except.error NetError.assertionFailed }
    else
      { constructed := some v
        load_size := some 512
        crop_size := some 320
        result := Except.error (NetError.unboundLocal "net") }

/-- `UnetModel.set_input` mask rescaling: `seg = (seg + 1) / 2`. -/
def set_input_mask (x : ℚ) : ℚ := (x + 1) / 2

/-- `UnetModel.compute_visuals` mask rescaling: `m * 2 - 1`. -/
def compute_visuals_mask (y : ℚ) : ℚ := y * 2 - 1

/-- `UnetModel.compute_visuals` with a batch embedded as a list of
per-sample scalars and the `randint(0, batch_size - 1)` draw as the
parameter `idx`: exposes `input_image = img[idx]`,
`true_seg = seg[idx] * 2 - 1`, `pred_seg = output[idx] * 2 - 1`. -/
def compute_visuals (img seg output : List ℚ) (idx : Nat) : ℚ × ℚ × ℚ :=
  (img.getD idx 0, seg.getD idx 0 * 2 - 1, output.getD idx 0 * 2 - 1)

end UNet

/-- C7: an unrecognized `unet_type` makes `get_network_by_name` raise
`NotImplementedError` naming the invalid value, with no model
constructed; and each of the five recognized names dispatches to its
corresponding architecture variant, which is then constructed. -/
theorem UNet.get_network_by_name_dispatch (t : String) (gpu_ids : List Nat) (cuda : Bool) :
    (UNet.unetDispatch t = none →
      (UNet.get_network_by_name t gpu_ids cuda).result =
        Except.error (UNet.NetError.notImplemented
          ("Unet model name [" ++ t ++ "] is not recognized")) ∧
      (UNet.get_network_by_name t gpu_ids cuda).constructed = none) ∧
    (∀ v, UNet.unetDispatch t = some v →
      (UNet.get_network_by_name t gpu_ids cuda).constructed = some v) ∧
    UNet.unetDispatch "unet" = some UNet.UnetVariant.unet ∧
    UNet.unetDispatch "unet_2plus" = some UNet.UnetVariant.unet_2plus ∧
    UNet.unetDispatch "unet_3plus" = some UNet.UnetVariant.unet_3plus ∧
    UNet.unetDispatch "unet_3plus_deepsup" = some UNet.UnetVariant.unet_3plus_deepsup ∧
    UNet.unetDispatch "unet_3plus_deepsup_cgm" =
      some UNet.UnetVariant.unet_3plus_deepsup_cgm := by
  refine ⟨fun h => ?_, fun v h => ?_, by decide, by decide, by decide, by decide, by decide⟩
  · unfold UNet.get_network_by_name
    rw [h]
    exact ⟨rfl, rfl⟩
  · by_cases hg : 0 < gpu_ids.length <;> by_cases hc : cuda <;>
      simp [UNet.get_network_by_name, h, hg, hc]

/-- C7 witness: at the unrecognized name `unet_4plus` the result is
the naming error with nothing constructed, and at the recognized
name `unet` the plain `UNet` variant is constructed. -/
theorem UNet.get_network_by_name_dispatch_witness :
    ((UNet.get_network_by_name "unet_4plus" [0] true).result =
      Except.error (UNet.NetError.notImplemented
        ("Unet model name [" ++ "unet_4plus" ++ "] is not recognized")) ∧
    (UNet.get_network_by_name "unet_4plus" [0] true).constructed = none) ∧
    (UNet.get_network_by_name "unet" [0] true).constructed =
      some UNet.UnetVariant.unet :=
  ⟨(UNet.get_network_by_name_dispatch "unet_4plus" [0] true).1 (by decide),
    (UNet.get_network_by_name_dispatch "unet" [0] true).2.1 UNet.UnetVariant.unet
      (by decide)⟩

/-- C10: with an empty `gpu_ids` list and any recognized `unet_type`,
`get_network_by_name` constructs the model but reaches `return net`
with the local `net` never bound, so it raises an unbound-local
error instead of returning a network: the orchestrator cannot be
constructed for CPU-only execution. -/
theorem UNet.get_network_by_name_empty_gpu_unbound (t : String) (v : UNet.UnetVariant)
    (cuda : Bool) (h : UNet.unetDispatch t = some v) :
    (UNet.get_network_by_name t [] cuda).result =
      Except.error (UNet.NetError.unboundLocal "net") ∧
    (UNet.get_network_by_name t [] cuda).constructed = some v := by
  unfold UNet.get_network_by_name
  rw [h]
  exact ⟨rfl, rfl⟩

/-- C10 witness: with `unet_type = "unet"` and no GPU ids, the
outcome is the unbound-local error on `net`. -/
theorem UNet.get_network_by_name_empty_gpu_unbound_witness :
    (UNet.get_network_by_name "unet" [] true).result =
      Except.error (UNet.NetError.unboundLocal "net") ∧
    (UNet.get_network_by_name "unet" [] true).constructed =
      some UNet.UnetVariant.unet :=
  UNet.get_network_by_name_empty_gpu_unbound "unet" UNet.UnetVariant.unet true (by decide)

/-- C8: the `set_input` mask rescaling `[-1,1] → [0,1]` followed by
the `compute_visuals` rescaling `[0,1] → [-1,1]` is the identity on
every rational mask value (the round trip is exact). -/
theorem UNet.mask_rescale_round_trip (x : ℚ) :
    UNet.compute_visuals_mask (UNet.set_input_mask x) = x := by
  unfold UNet.compute_visuals_mask UNet.set_input_mask
  ring

/-- C9 counterexample: `compute_visuals` does not rescale the input
image.  At `img = [0]`, `seg = [1]`, `output = [1]`, `idx = 0` the
exposed input image is `0`, the value stored in the batch, not the
`[0,1] → [-1,1]` rescaling `-1` the claim requires for all three
exposed tensors. -/
theorem UNet.compute_visuals_input_not_rescaled :
    ¬ ((UNet.compute_visuals [0] [1] [1] 0).1 =
      UNet.compute_visuals_mask (([(0 : ℚ)].getD 0 0))) := by
  norm_num [UNet.compute_visuals, UNet.compute_visuals_mask]

/-- C9 (amended): for every batch and every admissible random index
`idx` (the `randint(0, batch_size - 1)` draw), `compute_visuals`
exposes the selected sample's input image unchanged and its
ground-truth and predicted masks rescaled to the `[-1,1]` encoding
by the `[0,1] → [-1,1]` transform. -/
theorem UNet.compute_visuals_spec (img seg output : List ℚ) (idx batch_size : Nat)
    (h : idx < batch_size) :
    UNet.compute_visuals img seg output idx =
      (img.getD idx 0,
        UNet.compute_visuals_mask (seg.getD idx 0),
        UNet.compute_visuals_mask (output.getD idx 0)) := rfl

/-- C9 witness: at the one-sample batch `img = [0]`, `seg = [1]`,
`output = [1]` with `idx = 0` drawn from a batch of size `1`. -/
theorem UNet.compute_visuals_spec_witness :
    (0 < 1) ∧
    UNet.compute_visuals [0] [1] [1] 0 =
      (([(0 : ℚ)].getD 0 0),
        UNet.compute_visuals_mask (([(1 : ℚ)].getD 0 0)),
        UNet.compute_visuals_mask (([(1 : ℚ)].getD 0 0))) :=
  ⟨Nat.zero_lt_one, UNet.compute_visuals_spec [0] [1] [1] 0 1 Nat.zero_lt_one⟩



/-- C2 counterexample: with `lambda_identity = 1`, `lambda_A = 1`,
`lambda_B = 2` and an identity criterion evaluating to `1` on each
identity image, `backward_G` produces `loss_G = 3` (the identity
terms are scaled by `lambda_B * lambda_identity` and
`lambda_A * lambda_identity`), while the claimed six-term sum with
identity terms scaled by exactly `lambda_identity` evaluates to `2`. -/
theorem PCG.backward_G_total_ne_claimed :
    (PCG.backward_G PCG.envQ PCG.sQ).loss_G ≠ PCG.claimedLossG PCG.envQ PCG.sQ := by
  norm_num [PCG.backward_G, PCG.claimedLossG, PCG.envQ, PCG.sQ]

/-- C2 (amended): the total generator loss is the unweighted sum of
six terms: the adversarial loss of each generator, the forward cycle
loss scaled by `lambda_A`, the backward cycle loss scaled by
`lambda_B`, and, when `lambda_identity > 0`, identity losses scaled
by `lambda_B * lambda_identity` (A side) and by
`lambda_A * lambda_identity` (B side); when `lambda_identity ≤ 0`
the identity terms are `0`. -/
theorem PCG.backward_G_total_decomposition {T : Type} (env : CGEnv T) (s : CGState T) :
    (PCG.backward_G env s).loss_G =
      env.criterionGAN (env.netD_A s.fake_B) true +
      env.criterionGAN (env.netD_B s.fake_A) true +
      env.criterionCycle s.rec_A s.real_A * env.lambda_A +
      env.criterionCycle s.rec_B s.real_B * env.lambda_B +
      (if env.lambda_identity > 0 then
        env.criterionIdt (env.netG_A (env.cat1 s.real_B s.aux_B)) s.real_B *
          env.lambda_B * env.lambda_identity
       else 0) +
      (if env.lambda_identity > 0 then
        env.criterionIdt (env.netG_B (env.cat1 s.real_A s.aux_A)) s.real_A *
          env.lambda_A * env.lambda_identity
       else 0) := by
  by_cases h : env.lambda_identity > 0 <;>
    simp [PCG.backward_G, h]

/-- C5: when `lambda_identity = 0`, `backward_G` sets both
`loss_idt_A` and `loss_idt_B` to exactly `0`. -/
theorem PCG.backward_G_idt_zero {T : Type} (env : CGEnv T) (s : CGState T)
    (h : env.lambda_identity = 0) :
    (PCG.backward_G env s).loss_idt_A = 0 ∧ (PCG.backward_G env s).loss_idt_B = 0 := by
  unfold PCG.backward_G
  rw [h]
  norm_num

/-- C5 witness: at the concrete environment `envQ` with its identity
weight replaced by `0` and the zero state, both identity losses are
`0`. -/
theorem PCG.backward_G_idt_zero_witness :
    ({ PCG.envQ with lambda_identity := 0 } : PCG.CGEnv ℚ).lambda_identity = 0 ∧
    ((PCG.backward_G { PCG.envQ with lambda_identity := 0 } PCG.sQ).loss_idt_A = 0 ∧
      (PCG.backward_G { PCG.envQ with lambda_identity := 0 } PCG.sQ).loss_idt_B = 0) :=
  ⟨rfl, PCG.backward_G_idt_zero { PCG.envQ with lambda_identity := 0 } PCG.sQ rfl⟩


/-- C1: `forward()` computes exactly `fake_B = G_A(real_A ⊕ aux_A)`,
`rec_A = G_B(fake_B ⊕ aux_A)`, `fake_A = G_B(real_B ⊕ aux_B)`,
`rec_B = G_A(fake_A ⊕ aux_B)` (with `⊕` channel concatenation), and
changes nothing else in the orchestrator state: inputs, auxiliary
features, identity images and every loss accumulator are unchanged. -/
theorem PCG.forward_computes_fakes_and_recs {T : Type} (env : CGEnv T) (s : CGState T) :
    (forward env s).fake_B = env.netG_A (env.cat1 s.real_A s.aux_A) ∧
    (forward env s).rec_A = env.netG_B (env.cat1 (forward env s).fake_B s.aux_A) ∧
    (forward env s).fake_A = env.netG_B (env.cat1 s.real_B s.aux_B) ∧
    (forward env s).rec_B = env.netG_A (env.cat1 (forward env s).fake_A s.aux_B) ∧
    (forward env s).real_A = s.real_A ∧
    (forward env s).real_B = s.real_B ∧
    (forward env s).aux_A = s.aux_A ∧
    (forward env s).aux_B = s.aux_B ∧
    (forward env s).idt_A = s.idt_A ∧
    (forward env s).idt_B = s.idt_B ∧
    (forward env s).loss_idt_A = s.loss_idt_A ∧
    (forward env s).loss_idt_B = s.loss_idt_B ∧
    (forward env s).loss_G_A = s.loss_G_A ∧
    (forward env s).loss_G_B = s.loss_G_B ∧
    (forward env s).loss_cycle_A = s.loss_cycle_A ∧
    (forward env s).loss_cycle_B = s.loss_cycle_B ∧
    (forward env s).loss_G = s.loss_G ∧
    (forward env s).loss_D_A = s.loss_D_A ∧
    (forward env s).loss_D_B = s.loss_D_B :=
  ⟨rfl, rfl, rfl, rfl, rfl, rfl, rfl, rfl, rfl, rfl, rfl, rfl, rfl, rfl, rfl, rfl, rfl,
    rfl, rfl⟩
